import Mathlib

/-!
Shallow embedding of the tinytop host-metrics sampler (Go).

Source layout:
* `pkg/psutil` — `SysInfo` and `Info`, the snapshot assembler over the
  gopsutil readers (cpu, disk, host, mem, sensors);
* `pkg/core` — `Config`, `App`, and two variants of `App.Run`: the active
  one (straight-line: one `psutil.Info` call, JSON output, no loop) and an
  alternate one whose tick loop is live but contains no collection;
* `pkg/config` — `ParseFlags` (flag validation);
* `cmd` main — flag parsing, `App.Run`, exit codes.

OS readers are external collaborators: each is modelled as a pre-recorded
`Except` result (or, for per-partition usage, a function from mountpoint to
an `Except` result) carried by a `Readers` record.  Go's `(value, error)`
returns become `Except String`; nil pointers become `Option`; log output is
modelled as explicit lists of messages.
-/

namespace Tinytop

/-- Go runtime identity block (`psutil.GoInfo`). -/
structure GoInfo where
  goos : String
  goarch : String
  numCPU : Nat
  version : String
deriving DecidableEq, Repr

/-- gopsutil `cpu.InfoStat`, restricted to representative fields: the
program stores these values without inspecting them. -/
structure CPUInfoStat where
  modelName : String
  mhz : Nat
deriving DecidableEq, Repr

/-- gopsutil `disk.PartitionStat`.  The program reads `mountpoint` (usage
query key) and `opts` (the "nobrowse" filter); other fields pass through. -/
structure PartitionStat where
  device : String
  mountpoint : String
  fstype : String
  opts : List String
deriving DecidableEq, Repr

/-- gopsutil `disk.UsageStat`, representative fields only (opaque to the
program). -/
structure UsageStat where
  total : Nat
  used : Nat
deriving DecidableEq, Repr

/-- gopsutil `disk.IOCountersStat`, representative fields only. -/
structure IOCountersStat where
  readCount : Nat
  writeCount : Nat
deriving DecidableEq, Repr

/-- gopsutil `host.InfoStat`, representative fields only. -/
structure HostInfoStat where
  hostname : String
  uptime : Nat
deriving DecidableEq, Repr

/-- gopsutil `mem.VirtualMemoryStat`, representative fields only. -/
structure VirtualMemoryStat where
  total : Nat
  available : Nat
deriving DecidableEq, Repr

/-- gopsutil `mem.SwapDevice`, representative field only. -/
structure SwapDevice where
  name : String
deriving DecidableEq, Repr

/-- gopsutil `mem.SwapMemoryStat`, representative fields only. -/
structure SwapMemoryStat where
  total : Nat
  used : Nat
deriving DecidableEq, Repr

/-- gopsutil `sensors.TemperatureStat`, representative fields only. -/
structure TemperatureStat where
  sensorKey : String
  temperature : Int
deriving DecidableEq, Repr

/-- One entry of `SysInfo.Partitions` (`psutil.PartitionUsage`): the
partition, its usage when the query succeeded (`nil` pointer → `none`),
and the query's error when it failed (`UsageErr`). -/
structure PartitionUsage where
  partition : PartitionStat
  usage : Option UsageStat
  usageErr : Option String
deriving DecidableEq, Repr

/-- `psutil.SysInfo`: the snapshot assembled by one pass of `Info`.
Go nil-able pointers are `Option`; Go slices and the `IOCounters` map are
lists (the map as an association list keyed by device name). -/
structure SysInfo where
  goInfo : GoInfo
  cpuCores : Nat
  cpuInfo : List CPUInfoStat
  ioCounters : List (String × IOCountersStat)
  partitions : List PartitionUsage
  hostInfo : Option HostInfoStat
  memInfo : Option VirtualMemoryStat
  swapDevices : List SwapDevice
  swapInfo : Option SwapMemoryStat
  sensorTemperatures : List TemperatureStat
deriving DecidableEq, Repr

/-- The subsystem reader set for one assembly pass: each OS query's result
is pre-recorded, since the readers are synchronous external collaborators.
`usage` maps a mountpoint to the result `disk.Usage` would return. -/
structure Readers where
  cpuCounts : Except String Nat
  cpuInfo : Except String (List CPUInfoStat)
  partitions : Except String (List PartitionStat)
  usage : String → Except String UsageStat
  ioCounters : Except String (List (String × IOCountersStat))
  hostInfo : Except String HostInfoStat
  virtualMemory : Except String VirtualMemoryStat
  swapDevices : Except String (List SwapDevice)
  swapMemory : Except String SwapMemoryStat
  sensorTemperatures : Except String (List TemperatureStat)

/-- The "exclude from browsing" test from `Info`'s partition loop: a
partition is skipped when any mount option equals "nobrowse" (macOS). -/
def isNoBrowse (p : PartitionStat) : Bool :=
  p.opts.any (fun o => o == "nobrowse")

/-- One iteration of `Info`'s partition loop body after the filter: query
usage for the mountpoint and record the value or the error inline. -/
def queryUsage (usage : String → Except String UsageStat) (p : PartitionStat) :
    PartitionUsage :=
  match usage p.mountpoint with
  | Except.ok u => { partition := p, usage := some u, usageErr := none }
  | Except.error e => { partition := p, usage := none, usageErr := some e }

/-- `Info`'s partition loop: skip "nobrowse" partitions before querying
usage; otherwise append the partition's entry and continue. -/
def partitionUsages (usage : String → Except String UsageStat) :
    List PartitionStat → List PartitionUsage
  | [] => []
  | p :: rest =>
    if isNoBrowse p then partitionUsages usage rest
    else queryUsage usage p :: partitionUsages usage rest

/-- `psutil.Info`: assemble one snapshot from the readers.  The Go function
returns `(*SysInfo, error)` and logs warnings through the global logger;
here it returns the `Except` result paired with the list of warning
messages emitted.  Mandatory readers (`cpu.Counts`, `cpu.Info`,
`disk.Partitions`, `disk.IOCounters`, `host.Info`, `mem.VirtualMemory`,
`mem.SwapMemory`) abort with the error; `mem.SwapDevices` and
`sensors.SensorsTemperatures` only warn and leave their field empty. -/
def Info (g : GoInfo) (r : Readers) : Except String SysInfo × List String :=
  match r.cpuCounts with
  | Except.error e => (Except.error e, [])
  | Except.ok cores =>
    match r.cpuInfo with
    | Except.error e => (Except.error e, [])
    | Except.ok cinfo =>
      match r.partitions with
      | Except.error e => (Except.error e, [])
      | Except.ok parts =>
        match r.ioCounters with
        | Except.error e => (Except.error e, [])
        | Except.ok io =>
          match r.hostInfo with
          | Except.error e => (Except.error e, [])
          | Except.ok h =>
            match r.virtualMemory with
            | Except.error e => (Except.error e, [])
            | Except.ok vm =>
              let swapPart :=
                match r.swapDevices with
                | Except.error _ =>
                  (([] : List SwapDevice), ["Failed to get swap devices"])
                | Except.ok sd => (sd, [])
              match r.swapMemory with
              | Except.error e => (Except.error e, swapPart.2)
              | Except.ok sm =>
                let tempPart :=
                  match r.sensorTemperatures with
                  | Except.error _ =>
                    (([] : List TemperatureStat),
                      ["Failed to get sensor temperatures"])
                  | Except.ok t => (t, [])
                (Except.ok
                  { goInfo := g
                    cpuCores := cores
                    cpuInfo := cinfo
                    ioCounters := io
                    partitions := partitionUsages r.usage parts
                    hostInfo := some h
                    memInfo := some vm
                    swapDevices := swapPart.1
                    swapInfo := some sm
                    sensorTemperatures := tempPart.1 },
                  swapPart.2 ++ tempPart.2)

/-- `core.Config`: parsed flag values.  `interval` and `duration` are Go
`time.Duration` values (signed integers; here `Int`, unit irrelevant). -/
structure Config where
  interval : Int
  duration : Int
  logFile : String
  logToStdout : Bool
deriving DecidableEq, Repr

/-- `config.ParseFlags`, validation part (lines 97-110): reject
non-positive interval or duration, otherwise build the `Config`.  The
flag-string parsing and the help path are external to this model; inputs
are the already-parsed flag values. -/
def ParseFlags (interval duration : Int) (logFile : String)
    (logToStdout : Bool) : Except String Config :=
  if interval ≤ 0 then
    Except.error ("interval must be positive, got " ++ toString interval)
  else if duration ≤ 0 then
    Except.error ("duration must be positive, got " ++ toString duration)
  else
    Except.ok { interval := interval, duration := duration,
                logFile := logFile, logToStdout := logToStdout }

/-- How the tick loop of the alternate `App.Run` ended. -/
inductive SchedExit where
  /-- Loop guard failed or the break on the next-tick condition fired. -/
  | finished
  /-- The loop returned through one of its two cancellation checkpoints. -/
  | cancelled
  /-- Fuel ran out (unreachable when `0 < interval` and fuel covers the
  duration; a Go loop with `interval ≤ 0` never terminates). -/
  | fuelOut
deriving DecidableEq, Repr

/-- Loop-top cancellation checkpoint: with the idealized clock, at the top
of the iteration whose `currentTime` is `tick` the wall clock reads `tick`,
so a signal delivered at time `c` has been observed iff `c ≤ tick`. -/
def cancelSeen (cancel : Option Int) (tick : Int) : Bool :=
  match cancel with
  | none => false
  | some c => decide (c ≤ tick)

/-- Inter-tick wait checkpoint: during the select that races the timer
(firing at `next`) against the cancellation channel, cancellation wins iff
the signal arrives strictly before the timer fires. -/
def cancelWinsWait (cancel : Option Int) (next : Int) : Bool :=
  match cancel with
  | none => false
  | some c => decide (c < next)

/-- The tick loop of the alternate `App.Run` (lines 120-143): while
`currentTime < endTime`, check cancellation, run the (empty) body, advance
`currentTime` by `interval`, break when the next tick passes `endTime`
(or the wall clock already has), else wait for the tick or cancellation.
Returns the list of `currentTime` values at which the body ran, and how
the loop exited.  Time starts at 0, the wall clock is idealized to sit
exactly on the ticks, and structural fuel bounds the recursion. -/
def schedLoop (interval endT : Int) (cancel : Option Int) :
    Nat → Int → List Int × SchedExit
  | 0, _ => ([], SchedExit.fuelOut)
  | Nat.succ fuel, tick =>
    if tick < endT then
      if cancelSeen cancel tick then ([], SchedExit.cancelled)
      else
        let next := tick + interval
        if next > endT ∨ tick > endT then ([tick], SchedExit.finished)
        else if cancelWinsWait cancel next then ([tick], SchedExit.cancelled)
        else
          let r := schedLoop interval endT cancel fuel next
          (tick :: r.1, r.2)
    else ([], SchedExit.finished)

/-- Environment of the alternate `App.Run`: logger-initialization outcome
and the results of the collectors it queries once, before its loop. -/
structure Part000Env where
  initLogger : Except String Unit
  hostInfo : Except String HostInfoStat
  cpuInfo : Except String (List CPUInfoStat)

/-- Result of the alternate `App.Run`: the value it returns (`none` = Go
`nil`), the ticks at which its loop body ran, and the loop's exit mode. -/
structure Part000Result where
  err : Option String
  loopTicks : List Int
  exit : SchedExit
deriving DecidableEq, Repr

/-- The alternate `App.Run` (the variant that retains the tick loop):
initialize the logger (failure is returned), log identity and config,
query `host.Info` and `cpu.Info` once — their failures are only logged —
then run the tick loop and return `nil`.  No collection happens inside the
loop.  `cancel` is the delivery time of the interrupt signal, if any. -/
def part000Run (cfg : Config) (env : Part000Env) (cancel : Option Int) :
    Part000Result :=
  match env.initLogger with
  | Except.error e =>
    { err := some e, loopTicks := [], exit := SchedExit.finished }
  | Except.ok _ =>
    let r := schedLoop cfg.interval cfg.duration cancel
      (cfg.duration.toNat + 1) 0
    { err := none, loopTicks := r.1, exit := r.2 }

/-- Environment of the active `App.Run`: logger outcome, identity values,
the snapshot readers, the Go runtime block, and the JSON marshaller. -/
structure AppEnv where
  initLogger : Except String Unit
  currentUser : Except String String
  isSudo : Bool
  sudoUser : String
  goInfo : GoInfo
  readers : Readers
  marshal : SysInfo → Except String String

/-- Result of the active `App.Run`: the value Run returns (`none` = Go
`nil`), the number of assembly passes (`psutil.Info` calls) performed, and
the info-level, error-level and stdout output, in order. -/
structure AppResult where
  err : Option String
  passes : Nat
  infoLog : List String
  errorLog : List String
  printed : List String
deriving DecidableEq, Repr

/-- The active `App.Run` (`pkg/core/app.go`): initialize the logger
(failure is returned), log identity and config, call `psutil.Info` once —
on failure log it and return `nil` — marshal the snapshot to JSON — on
failure log it and return `nil` — print the JSON and return `nil`.  The
scheduling loop of this variant is commented out in the source, so exactly
one assembly pass happens per run. -/
def AppRun (cfg : Config) (env : AppEnv) : AppResult :=
  match env.initLogger with
  | Except.error e =>
    { err := some e, passes := 0, infoLog := [], errorLog := [],
      printed := [] }
  | Except.ok _ =>
    let user0 :=
      match env.currentUser with
      | Except.ok u => u
      | Except.error e => e
    let user :=
      if env.isSudo then
        (if env.sudoUser ≠ "" then env.sudoUser else user0)
      else user0
    let msg :=
      if env.isSudo then "Running with sudo privileges"
      else "Running as regular user"
    let infoLog :=
      [msg ++ ": " ++ user,
       "Collection interval and duration: " ++ toString cfg.interval ++
         " " ++ toString cfg.duration]
    match (Info env.goInfo env.readers).1 with
    | Except.error e =>
      { err := none, passes := 1, infoLog := infoLog,
        errorLog := ["Failed to get system info: " ++ e], printed := [] }
    | Except.ok s =>
      match env.marshal s with
      | Except.error e =>
        { err := none, passes := 1, infoLog := infoLog,
          errorLog := ["Failed to marshal system info to JSON: " ++ e],
          printed := [] }
      | Except.ok j =>
        { err := none, passes := 1, infoLog := infoLog, errorLog := [],
          printed := [j] }

/-- Outcome of the process entry point. -/
inductive MainOutcome where
  /-- The configuration-error path: zerolog's Fatal exits the process with
  status 1 before any collection. -/
  | fatalConfig (msg : String)
  /-- `App.Run` was invoked; the process exits with the given status. -/
  | completed (r : AppResult) (exitCode : Nat)
deriving DecidableEq, Repr

/-- The entry point (`cmd` main): parse and validate flags — on error,
log fatally and exit 1 without collecting — otherwise run the app; a
non-nil `Run` error exits 1, a nil one exits 0. -/
def mainEntry (interval duration : Int) (logFile : String)
    (logToStdout : Bool) (env : AppEnv) : MainOutcome :=
  match ParseFlags interval duration logFile logToStdout with
  | Except.error _ => MainOutcome.fatalConfig "Configuration error"
  | Except.ok cfg =>
    let r := AppRun cfg env
    match r.err with
    | some _ => MainOutcome.completed r 1
    | none => MainOutcome.completed r 0

/-- Number of assembly passes performed across a whole process run. -/
def MainOutcome.passes : MainOutcome → Nat
  | MainOutcome.fatalConfig _ => 0
  | MainOutcome.completed r _ => r.passes

/-! ### Concrete fixtures for witnesses and counterexamples -/

/-- A sample Go runtime identity block. -/
def gEx : GoInfo :=
  { goos := "darwin", goarch := "arm64", numCPU := 8, version := "go1.24" }

/-- A browsable root partition. -/
def pRoot : PartitionStat :=
  { device := "/dev/disk3s1", mountpoint := "/", fstype := "apfs",
    opts := ["rw", "journaled"] }

/-- A partition carrying the "nobrowse" mount option. -/
def pNoB : PartitionStat :=
  { device := "/dev/disk3s6", mountpoint := "/System/Volumes/VM",
    fstype := "apfs", opts := ["rw", "nobrowse"] }

/-- A browsable data partition. -/
def pData : PartitionStat :=
  { device := "/dev/disk3s5", mountpoint := "/data", fstype := "apfs",
    opts := ["rw"] }

/-- A reader set on which every subsystem query succeeds. -/
def okReaders : Readers :=
  { cpuCounts := Except.ok 8
    cpuInfo := Except.ok [{ modelName := "Apple M1", mhz := 2400 }]
    partitions := Except.ok [pRoot, pNoB, pData]
    usage := fun _ => Except.ok { total := 1000, used := 400 }
    ioCounters := Except.ok [("disk0", { readCount := 10, writeCount := 20 })]
    hostInfo := Except.ok { hostname := "mac", uptime := 3600 }
    virtualMemory := Except.ok { total := 16384, available := 8192 }
    swapDevices := Except.ok [{ name := "/dev/swap0" }]
    swapMemory := Except.ok { total := 2048, used := 512 }
    sensorTemperatures := Except.ok [{ sensorKey := "cpu", temperature := 55 }] }

/-- `okReaders` with the swap-memory-stats reader failing. -/
def readersSwapMemFail : Readers :=
  { okReaders with swapMemory := Except.error "swap memory failed" }

/-- `okReaders` with the swap-devices reader failing. -/
def readersSwapDevFail : Readers :=
  { okReaders with swapDevices := Except.error "swap dev down" }

/-- `okReaders` with the virtual-memory reader failing. -/
def readersVMFail : Readers :=
  { okReaders with virtualMemory := Except.error "vm down" }

/-- `okReaders` with the usage query failing for the "/data" mountpoint. -/
def readersUsageFail : Readers :=
  { okReaders with
    usage := fun m =>
      if m == "/data" then Except.error "permission denied"
      else Except.ok { total := 1000, used := 400 } }

/-- The snapshot `Info` assembles from `okReaders`. -/
def sOk : SysInfo :=
  { goInfo := gEx
    cpuCores := 8
    cpuInfo := [{ modelName := "Apple M1", mhz := 2400 }]
    ioCounters := [("disk0", { readCount := 10, writeCount := 20 })]
    partitions := partitionUsages okReaders.usage [pRoot, pNoB, pData]
    hostInfo := some { hostname := "mac", uptime := 3600 }
    memInfo := some { total := 16384, available := 8192 }
    swapDevices := [{ name := "/dev/swap0" }]
    swapInfo := some { total := 2048, used := 512 }
    sensorTemperatures := [{ sensorKey := "cpu", temperature := 55 }] }

/-- Scenario-A configuration: interval 100 ms, duration 350 ms. -/
def cfgA : Config :=
  { interval := 100, duration := 350, logFile := "tinytop.log",
    logToStdout := false }

/-- Scenario-B configuration: interval 1 s, duration 1 s (as ms). -/
def cfgB : Config :=
  { interval := 1000, duration := 1000, logFile := "tinytop.log",
    logToStdout := false }

/-- An active-Run environment in which everything succeeds. -/
def envOk : AppEnv :=
  { initLogger := Except.ok ()
    currentUser := Except.ok "alice"
    isSudo := false
    sudoUser := ""
    goInfo := gEx
    readers := okReaders
    marshal := fun _ => Except.ok "{}" }

/-- `envOk` with the virtual-memory reader failing. -/
def envVMFail : AppEnv := { envOk with readers := readersVMFail }

/-- An alternate-Run environment in which everything succeeds. -/
def p000EnvOk : Part000Env :=
  { initLogger := Except.ok ()
    hostInfo := Except.ok { hostname := "mac", uptime := 3600 }
    cpuInfo := Except.ok [{ modelName := "Apple M1", mhz := 2400 }] }

/-! ### Helper lemmas -/

/-- The partition-loop entry keeps the partition it was built from. -/
theorem queryUsage_partition (u : String → Except String UsageStat)
    (p : PartitionStat) : (queryUsage u p).partition = p := by
  cases hu : u p.mountpoint <;> simp [queryUsage, hu]

/-- The partition loop is the usage query mapped over the partitions that
survive the "nobrowse" filter. -/
theorem partitionUsages_eq (u : String → Except String UsageStat)
    (l : List PartitionStat) :
    partitionUsages u l =
      (l.filter (fun q => ! isNoBrowse q)).map (queryUsage u) := by
  induction l with
  | nil => rfl
  | cons p rest ih =>
    by_cases hp : isNoBrowse p <;>
      simp [partitionUsages, List.filter_cons, hp, ih]

/-- Every entry the partition loop emits comes from a partition that is not
marked "nobrowse". -/
theorem partitionUsages_not_nobrowse (u : String → Except String UsageStat)
    (l : List PartitionStat) (pu : PartitionUsage)
    (hm : pu ∈ partitionUsages u l) : isNoBrowse pu.partition = false := by
  rw [partitionUsages_eq] at hm
  obtain ⟨q, hq, rfl⟩ := List.mem_map.mp hm
  have hf := List.mem_filter.mp hq
  rw [queryUsage_partition]
  simpa using hf.2

/-- If `Info` succeeds, the snapshot's partition list is the partition loop
applied to whatever the disk-partitions reader returned. -/
theorem info_ok_partitions (g : GoInfo) (r : Readers)
    (parts : List PartitionStat) (s : SysInfo)
    (hp : r.partitions = Except.ok parts)
    (hok : (Info g r).1 = Except.ok s) :
    s.partitions = partitionUsages r.usage parts := by
  cases hcc : r.cpuCounts with
  | error e => simp [Info, hcc] at hok
  | ok a =>
  cases hci : r.cpuInfo with
  | error e => simp [Info, hcc, hci] at hok
  | ok b =>
  cases hio : r.ioCounters with
  | error e => simp [Info, hcc, hci, hp, hio] at hok
  | ok io =>
  cases hh : r.hostInfo with
  | error e => simp [Info, hcc, hci, hp, hio, hh] at hok
  | ok h =>
  cases hvm : r.virtualMemory with
  | error e => simp [Info, hcc, hci, hp, hio, hh, hvm] at hok
  | ok vm =>
  cases hsm : r.swapMemory with
  | error e => simp [Info, hcc, hci, hp, hio, hh, hvm, hsm] at hok
  | ok sm =>
    simp only [Info, hcc, hci, hp, hio, hh, hvm, hsm] at hok
    cases hok
    rfl

/-- Every tick at which the alternate Run's loop body runs lies strictly
before the cancellation time: the loop-top checkpoint stops the loop as
soon as cancellation is observable. -/
theorem schedLoop_ticks_before_cancel (i endT c : Int) :
    ∀ fuel tick, ∀ t ∈ (schedLoop i endT (some c) fuel tick).1, t < c := by
  intro fuel
  induction fuel with
  | zero => intro tick t ht; simp [schedLoop] at ht
  | succ n ih =>
    intro tick t ht
    simp only [schedLoop] at ht
    by_cases h1 : tick < endT
    · rw [if_pos h1] at ht
      by_cases h2 : cancelSeen (some c) tick = true
      · rw [if_pos h2] at ht
        simp at ht
      · have hlt : tick < c := by
          have := h2
          simp [cancelSeen] at this
          omega
        rw [if_neg h2] at ht
        by_cases h3 : tick + i > endT ∨ tick > endT
        · rw [if_pos h3] at ht
          simp at ht
          omega
        · rw [if_neg h3] at ht
          by_cases h4 : cancelWinsWait (some c) (tick + i) = true
          · rw [if_pos h4] at ht
            simp at ht
            omega
          · rw [if_neg h4] at ht
            rcases List.mem_cons.mp ht with hEq | hRest
            · omega
            · exact ih (tick + i) t hRest
    · rw [if_neg h1] at ht
      simp at ht

/-! ### Claim theorems -/

/-- C1 counterexample: with every reader succeeding except the
swap-memory-stats reader, `psutil.Info` does not return a completed
snapshot with a warning — it aborts the pass with the reader's error (and
emits no warning), refuting the claim that swap memory stats are handled
best-effort. -/
theorem info_swap_memory_failure_cex :
    Info gEx readersSwapMemFail = (Except.error "swap memory failed", []) :=
  rfl

/-- C1 (amended): in `psutil.Info` the swap-memory-stats reader is
mandatory — its failure aborts the pass and returns the error — while it
is the swap-devices reader whose failure is tolerated: the pass completes
with `SwapDevices` left empty and the warning "Failed to get swap devices"
emitted. -/
theorem info_swap_policy (g : GoInfo) (r : Readers)
    (a : Nat) (b : List CPUInfoStat) (parts : List PartitionStat)
    (io : List (String × IOCountersStat)) (h : HostInfoStat)
    (vm : VirtualMemoryStat)
    (hcc : r.cpuCounts = Except.ok a) (hci : r.cpuInfo = Except.ok b)
    (hpp : r.partitions = Except.ok parts)
    (hio : r.ioCounters = Except.ok io)
    (hh : r.hostInfo = Except.ok h)
    (hvm : r.virtualMemory = Except.ok vm) :
    (∀ e, r.swapMemory = Except.error e → (Info g r).1 = Except.error e) ∧
    (∀ d sm ts, r.swapDevices = Except.error d →
      r.swapMemory = Except.ok sm → r.sensorTemperatures = Except.ok ts →
      Info g r = (Except.ok
        { goInfo := g, cpuCores := a, cpuInfo := b, ioCounters := io,
          partitions := partitionUsages r.usage parts,
          hostInfo := some h, memInfo := some vm, swapDevices := [],
          swapInfo := some sm, sensorTemperatures := ts },
        ["Failed to get swap devices"])) := by
  constructor
  · intro e he
    simp [Info, hcc, hci, hpp, hio, hh, hvm, he]
  · intro d sm ts hd hsm hts
    simp [Info, hcc, hci, hpp, hio, hh, hvm, hd, hsm, hts]

/-- C1 witness: on a concrete reader set whose swap-devices reader fails
(everything else succeeding), `Info` completes the snapshot with an empty
swap-device list and the swap-devices warning. -/
theorem info_swap_policy_witness :
    Info gEx readersSwapDevFail = (Except.ok
      { goInfo := gEx, cpuCores := 8,
        cpuInfo := [{ modelName := "Apple M1", mhz := 2400 }],
        ioCounters := [("disk0", { readCount := 10, writeCount := 20 })],
        partitions := partitionUsages readersSwapDevFail.usage
          [pRoot, pNoB, pData],
        hostInfo := some { hostname := "mac", uptime := 3600 },
        memInfo := some { total := 16384, available := 8192 },
        swapDevices := [],
        swapInfo := some { total := 2048, used := 512 },
        sensorTemperatures := [{ sensorKey := "cpu", temperature := 55 }] },
      ["Failed to get swap devices"]) :=
  (info_swap_policy gEx readersSwapDevFail 8
      [{ modelName := "Apple M1", mhz := 2400 }] [pRoot, pNoB, pData]
      [("disk0", { readCount := 10, writeCount := 20 })]
      { hostname := "mac", uptime := 3600 }
      { total := 16384, available := 8192 }
      rfl rfl rfl rfl rfl rfl).2 "swap dev down"
      { total := 2048, used := 512 }
      [{ sensorKey := "cpu", temperature := 55 }] rfl rfl rfl

/-- C2: for each mandatory subsystem — CPU core count, CPU info, disk
partitions, disk IO counters, host identity, virtual memory — if that
reader fails during an assembly pass (the readers before it having
succeeded), `psutil.Info` returns that error to the caller and produces no
partial snapshot (and, these readers all running before the warning-only
ones, no warning either). -/
theorem info_mandatory_failure_aborts (g : GoInfo) (r : Readers)
    (e : String) :
    (r.cpuCounts = Except.error e → Info g r = (Except.error e, [])) ∧
    (∀ a, r.cpuCounts = Except.ok a → r.cpuInfo = Except.error e →
      Info g r = (Except.error e, [])) ∧
    (∀ a b, r.cpuCounts = Except.ok a → r.cpuInfo = Except.ok b →
      r.partitions = Except.error e → Info g r = (Except.error e, [])) ∧
    (∀ a b c, r.cpuCounts = Except.ok a → r.cpuInfo = Except.ok b →
      r.partitions = Except.ok c → r.ioCounters = Except.error e →
      Info g r = (Except.error e, [])) ∧
    (∀ a b c d, r.cpuCounts = Except.ok a → r.cpuInfo = Except.ok b →
      r.partitions = Except.ok c → r.ioCounters = Except.ok d →
      r.hostInfo = Except.error e → Info g r = (Except.error e, [])) ∧
    (∀ a b c d h, r.cpuCounts = Except.ok a → r.cpuInfo = Except.ok b →
      r.partitions = Except.ok c → r.ioCounters = Except.ok d →
      r.hostInfo = Except.ok h → r.virtualMemory = Except.error e →
      Info g r = (Except.error e, [])) := by
  refine ⟨?_, ?_, ?_, ?_, ?_, ?_⟩
  · intro h1; simp [Info, h1]
  · intro a h1 h2; simp [Info, h1, h2]
  · intro a b h1 h2 h3; simp [Info, h1, h2, h3]
  · intro a b c h1 h2 h3 h4; simp [Info, h1, h2, h3, h4]
  · intro a b c d h1 h2 h3 h4 h5; simp [Info, h1, h2, h3, h4, h5]
  · intro a b c d h h1 h2 h3 h4 h5 h6; simp [Info, h1, h2, h3, h4, h5, h6]

/-- C2 witness: on a concrete reader set whose virtual-memory reader
fails, `Info` returns exactly that error and no snapshot. -/
theorem info_mandatory_failure_aborts_witness :
    Info gEx readersVMFail = (Except.error "vm down", []) :=
  (info_mandatory_failure_aborts gEx readersVMFail "vm down").2.2.2.2.2 8
    [{ modelName := "Apple M1", mhz := 2400 }] [pRoot, pNoB, pData]
    [("disk0", { readCount := 10, writeCount := 20 })]
    { hostname := "mac", uptime := 3600 } rfl rfl rfl rfl rfl rfl

/-- C3 counterexample: with interval 100 ms, duration 350 ms and no
cancellation, the active `App.Run` performs one assembly pass, not four —
its scheduling loop is commented out, so the pass count never depends on
the configuration. -/
theorem scenarioA_four_passes_cex :
    (AppRun cfgA envOk).passes = 1 ∧ (AppRun cfgA envOk).passes ≠ 4 := by
  constructor <;> decide

/-- C3 (amended): with interval 100 ms, duration 350 ms and no
cancellation, `App.Run` performs exactly one assembly pass and returns
`nil`; the tick loop (live only in the alternate Run variant, with no
collection in its body) iterates exactly four times, at t = 0, 100, 200
and 300 ms, and exits once the next computed tick (400 ms) exceeds
350 ms. -/
theorem scenarioA_one_pass_four_ticks :
    (AppRun cfgA envOk).passes = 1 ∧ (AppRun cfgA envOk).err = none ∧
    part000Run cfgA p000EnvOk none =
      { err := none, loopTicks := [0, 100, 200, 300],
        exit := SchedExit.finished } := by
  refine ⟨rfl, rfl, ?_⟩
  rfl

/-- C4: whenever the alternate `App.Run` observes cancellation at one of
its two checkpoints (the loop-top check or the inter-tick wait), it
returns `nil` — cancellation is never an error — and no loop iteration
runs at or after the cancellation time: the body only ever runs at ticks
strictly before it. -/
theorem cancellation_clean_exit (cfg : Config) (env : Part000Env) (c : Int)
    (hc : (part000Run cfg env (some c)).exit = SchedExit.cancelled) :
    (part000Run cfg env (some c)).err = none ∧
    ∀ t ∈ (part000Run cfg env (some c)).loopTicks, t < c := by
  cases hl : env.initLogger with
  | error e =>
    rw [part000Run, hl] at hc
    simp at hc
  | ok u =>
    rw [part000Run, hl]
    exact ⟨rfl, fun t ht =>
      schedLoop_ticks_before_cancel cfg.interval cfg.duration c
        (cfg.duration.toNat + 1) 0 t ht⟩

/-- C4 witness: cancellation delivered at t = 150 ms into an
interval 100 ms / duration 350 ms run is observed during the wait for the
200 ms tick; the run returns `nil` and every executed iteration (t = 0 and
t = 100) precedes the cancellation time. -/
theorem cancellation_clean_exit_witness :
    (part000Run cfgA p000EnvOk (some 150)).err = none ∧
    ∀ t ∈ (part000Run cfgA p000EnvOk (some 150)).loopTicks, t < 150 :=
  cancellation_clean_exit cfgA p000EnvOk 150 rfl

/-- C5: a partition whose mount options include "nobrowse" never appears
in the snapshot's partition list: whenever `psutil.Info` succeeds, no
entry of the resulting partition list carries it, whatever the usage
reader would have returned for it. -/
theorem nobrowse_partition_excluded (g : GoInfo) (r : Readers)
    (parts : List PartitionStat) (p : PartitionStat) (s : SysInfo)
    (hp : r.partitions = Except.ok parts)
    (hnb : "nobrowse" ∈ p.opts)
    (hok : (Info g r).1 = Except.ok s) :
    ∀ pu ∈ s.partitions, pu.partition ≠ p := by
  intro pu hpu hEq
  have hparts := info_ok_partitions g r parts s hp hok
  rw [hparts] at hpu
  have hno := partitionUsages_not_nobrowse r.usage parts pu hpu
  rw [hEq] at hno
  have hyes : isNoBrowse p = true := by simpa [isNoBrowse] using hnb
  rw [hyes] at hno
  exact Bool.noConfusion hno

/-- C5 witness: on the all-success reader set, whose partition list
contains the "nobrowse"-marked `pNoB`, the first snapshot entry (the root
partition, usage queried successfully) is not that partition — applied
from the theorem, which rules `pNoB` out of every entry. -/
theorem nobrowse_partition_excluded_witness :
    ({ partition := pRoot,
       usage := some { total := 1000, used := 400 },
       usageErr := none } : PartitionUsage).partition ≠ pNoB :=
  nobrowse_partition_excluded gEx okReaders [pRoot, pNoB, pData] pNoB sOk
    rfl (by decide) rfl
    { partition := pRoot, usage := some { total := 1000, used := 400 },
      usageErr := none } (by decide)

/-- C6: if the usage query fails for a partition that survives the
"nobrowse" filter, the pass does not abort — with every reader succeeding,
`Info` still returns a completed snapshot — the failed partition's entry
is present with the error recorded in `usageErr` and no usage value, and
every surviving partition (before and after it) still gets an entry, in
order. -/
theorem usage_failure_isolated (g : GoInfo) (r : Readers)
    (a : Nat) (b : List CPUInfoStat) (parts : List PartitionStat)
    (io : List (String × IOCountersStat)) (h : HostInfoStat)
    (vm : VirtualMemoryStat) (sd : List SwapDevice) (sm : SwapMemoryStat)
    (ts : List TemperatureStat) (p : PartitionStat) (e : String)
    (hcc : r.cpuCounts = Except.ok a) (hci : r.cpuInfo = Except.ok b)
    (hpp : r.partitions = Except.ok parts)
    (hio : r.ioCounters = Except.ok io)
    (hh : r.hostInfo = Except.ok h)
    (hvm : r.virtualMemory = Except.ok vm)
    (hsd : r.swapDevices = Except.ok sd)
    (hsm : r.swapMemory = Except.ok sm)
    (hts : r.sensorTemperatures = Except.ok ts)
    (hmem : p ∈ parts) (hnb : isNoBrowse p = false)
    (hue : r.usage p.mountpoint = Except.error e) :
    Info g r = (Except.ok
      { goInfo := g, cpuCores := a, cpuInfo := b, ioCounters := io,
        partitions := partitionUsages r.usage parts,
        hostInfo := some h, memInfo := some vm, swapDevices := sd,
        swapInfo := some sm, sensorTemperatures := ts }, []) ∧
    ({ partition := p, usage := none, usageErr := some e } :
        PartitionUsage) ∈ partitionUsages r.usage parts ∧
    (partitionUsages r.usage parts).map PartitionUsage.partition =
      parts.filter (fun q => ! isNoBrowse q) := by
  refine ⟨?_, ?_, ?_⟩
  · simp [Info, hcc, hci, hpp, hio, hh, hvm, hsd, hsm, hts]
  · rw [partitionUsages_eq]
    refine List.mem_map.mpr ⟨p, List.mem_filter.mpr ⟨hmem, by simp [hnb]⟩,
      by simp [queryUsage, hue]⟩
  · rw [partitionUsages_eq, List.map_map]
    have hcomp : PartitionUsage.partition ∘ queryUsage r.usage = id := by
      funext q
      simp [queryUsage_partition]
    rw [hcomp, List.map_id]

/-- C6 witness: on a concrete reader set whose usage query fails only for
"/data", the snapshot's partition list carries the "/data" entry with the
error recorded and no usage value. -/
theorem usage_failure_isolated_witness :
    ({ partition := pData, usage := none,
       usageErr := some "permission denied" } : PartitionUsage) ∈
      partitionUsages readersUsageFail.usage [pRoot, pNoB, pData] :=
  (usage_failure_isolated gEx readersUsageFail 8
      [{ modelName := "Apple M1", mhz := 2400 }] [pRoot, pNoB, pData]
      [("disk0", { readCount := 10, writeCount := 20 })]
      { hostname := "mac", uptime := 3600 }
      { total := 16384, available := 8192 } [{ name := "/dev/swap0" }]
      { total := 2048, used := 512 } [{ sensorKey := "cpu", temperature := 55 }]
      pData "permission denied"
      rfl rfl rfl rfl rfl rfl rfl rfl rfl (by decide) rfl rfl).2.1

/-- C7: when the single assembly pass fails with a mandatory-subsystem
error, the active `App.Run` logs the error, performs no further pass
(its pass count stays at one), prints nothing, and returns `nil` — a
clean, non-error termination. -/
theorem mandatory_error_stops_run_cleanly (cfg : Config) (env : AppEnv)
    (e : String)
    (hlog : env.initLogger = Except.ok ())
    (hfail : (Info env.goInfo env.readers).1 = Except.error e) :
    (AppRun cfg env).err = none ∧ (AppRun cfg env).passes = 1 ∧
    (AppRun cfg env).errorLog = ["Failed to get system info: " ++ e] ∧
    (AppRun cfg env).printed = [] := by
  simp [AppRun, hlog, hfail]

/-- C7 witness: with the virtual-memory reader failing, the concrete run
returns `nil`, performed its one (failed) pass, logged the error and
printed nothing. -/
theorem mandatory_error_stops_run_cleanly_witness :
    (AppRun cfgB envVMFail).err = none ∧
    (AppRun cfgB envVMFail).passes = 1 ∧
    (AppRun cfgB envVMFail).errorLog =
      ["Failed to get system info: " ++ "vm down"] ∧
    (AppRun cfgB envVMFail).printed = [] :=
  mandatory_error_stops_run_cleanly cfgB envVMFail "vm down" rfl rfl

/-- C8: for every flag configuration with a non-positive interval or a
non-positive duration, `ParseFlags` returns an error (no `Config`), and
the process exits on the configuration-error path with no assembly pass
ever attempted. -/
theorem invalid_flags_rejected (i d : Int) (lf : String) (st : Bool)
    (env : AppEnv)
    (hbad : i ≤ 0 ∨ d ≤ 0) :
    (∃ e, ParseFlags i d lf st = Except.error e) ∧
    mainEntry i d lf st env = MainOutcome.fatalConfig "Configuration error" ∧
    (mainEntry i d lf st env).passes = 0 := by
  have hpf : ∃ e, ParseFlags i d lf st = Except.error e := by
    rcases hbad with hi | hd
    · exact ⟨"interval must be positive, got " ++ toString i,
        by simp [ParseFlags, hi]⟩
    · by_cases hi : i ≤ 0
      · exact ⟨"interval must be positive, got " ++ toString i,
          by simp [ParseFlags, hi]⟩
      · exact ⟨"duration must be positive, got " ++ toString d,
          by simp [ParseFlags, hi, hd]⟩
  obtain ⟨e, he⟩ := hpf
  refine ⟨⟨e, he⟩, ?_, ?_⟩ <;> simp [mainEntry, he, MainOutcome.passes]

/-- C8 witness: a zero interval is rejected by `ParseFlags` and the
process exits before any collection. -/
theorem invalid_flags_rejected_witness :
    (∃ e, ParseFlags 0 1000 "tinytop.log" false = Except.error e) ∧
    mainEntry 0 1000 "tinytop.log" false envOk =
      MainOutcome.fatalConfig "Configuration error" ∧
    (mainEntry 0 1000 "tinytop.log" false envOk).passes = 0 :=
  invalid_flags_rejected 0 1000 "tinytop.log" false envOk (Or.inl (by decide))

/-- C9: for every configuration with positive duration and
interval ≥ duration, a run whose startup and single assembly succeed
performs exactly one assembly pass and returns `nil`; the active `App.Run`
performs its pass unconditionally before any next-tick logic (its loop
being absent), so the pass count is one. -/
theorem single_pass_when_interval_ge_duration (cfg : Config) (env : AppEnv)
    (s : SysInfo)
    (hge : cfg.duration ≤ cfg.interval) (hpos : 0 < cfg.duration)
    (hlog : env.initLogger = Except.ok ())
    (hok : (Info env.goInfo env.readers).1 = Except.ok s) :
    (AppRun cfg env).passes = 1 ∧ (AppRun cfg env).err = none := by
  cases hm : env.marshal s <;> simp [AppRun, hlog, hok, hm]

/-- C9 witness: scenario B (interval = duration = 1 s) performs exactly
one assembly pass and returns `nil`. -/
theorem single_pass_when_interval_ge_duration_witness :
    (AppRun cfgB envOk).passes = 1 ∧ (AppRun cfgB envOk).err = none :=
  single_pass_when_interval_ge_duration cfgB envOk sOk (by decide)
    (by decide) rfl rfl

/-- C10: the active `App.Run` returns a non-nil error exactly when logger
initialization failed (with that same error); a system-info collection
failure or a JSON-marshalling failure after a successful startup is
logged, and Run still returns `nil`. -/
theorem run_error_iff_logger_init_fails (cfg : Config) (env : AppEnv)
    (e : String) :
    ((AppRun cfg env).err = some e ↔ env.initLogger = Except.error e) ∧
    (∀ e2, env.initLogger = Except.ok () →
      (Info env.goInfo env.readers).1 = Except.error e2 →
      (AppRun cfg env).err = none ∧
      (AppRun cfg env).errorLog = ["Failed to get system info: " ++ e2]) ∧
    (∀ s e2, env.initLogger = Except.ok () →
      (Info env.goInfo env.readers).1 = Except.ok s →
      env.marshal s = Except.error e2 →
      (AppRun cfg env).err = none ∧
      (AppRun cfg env).errorLog =
        ["Failed to marshal system info to JSON: " ++ e2]) := by
  refine ⟨?_, ?_, ?_⟩
  · cases hl : env.initLogger with
    | error a => simp [AppRun, hl]
    | ok u =>
      have hnone : (AppRun cfg env).err = none := by
        cases hi : (Info env.goInfo env.readers).1 with
        | error e2 => simp [AppRun, hl, hi]
        | ok s => cases hm : env.marshal s <;> simp [AppRun, hl, hi, hm]
      rw [hnone]
      simp
  · intro e2 hl hi
    simp [AppRun, hl, hi]
  · intro s e2 hl hi hm
    simp [AppRun, hl, hi, hm]

/-- C10 witness: after a successful startup, a failing collection pass
leaves the concrete run with a `nil` result and the failure in the error
log. -/
theorem run_error_iff_logger_init_fails_witness :
    (AppRun cfgB envVMFail).err = none ∧
    (AppRun cfgB envVMFail).errorLog =
      ["Failed to get system info: " ++ "vm down"] :=
  (run_error_iff_logger_init_fails cfgB envVMFail "unused").2.1 "vm down"
    rfl rfl

end Tinytop
